import Mathlib

/- Verification of `scripts/generate-isl-dataset.py`: a shallow embedding of the
dataset generator (vocabulary aggregation, word→action resolution, SOV example
synthesis, morphological variant expansion, and the three exporters), together
with theorems settling the specification's claims about it. -/

namespace ISL

/-- Python `str.lower` restricted to the ASCII case mapping; every string the
program manipulates is ASCII (plus characters such as `é` that `lower` leaves
unchanged), so this is the exact behaviour of `.lower()` on the program's data. -/
def lowerChar (c : Char) : Char :=
  if 65 ≤ c.toNat ∧ c.toNat ≤ 90 then Char.ofNat (c.toNat + 32) else c

/-- Python `s.lower()`. -/
def pyLower (s : String) : String := ⟨s.data.map lowerChar⟩

/-- Python `s.endswith(suf)`. -/
def pyEndsWith (s suf : String) : Bool := suf.data.isSuffixOf s.data

/-- Python `s[:-1]`: drop the final character. -/
def dropLastStr (s : String) : String := ⟨s.data.dropLast⟩

/-- Python substring membership `pat in s`, on character lists. -/
def infixB (pat : List Char) : List Char → Bool
  | [] => pat.isEmpty
  | c :: rest => pat.isPrefixOf (c :: rest) || infixB pat rest

/-- Python substring membership `pat in s`. -/
def containsSub (s pat : String) : Bool := infixB pat.data s.data

/-- Fuel-indexed scanner behind `py_replace`: removes each non-overlapping
occurrence of `pat`, scanning left to right, exactly as Python
`str.replace(pat, '')` does.  The fuel argument only makes the recursion
structural; it never runs out when initialised with the list's length. -/
def replaceAllAux (pat : List Char) : Nat → List Char → List Char
  | _, [] => []
  | 0, s => s
  | fuel + 1, c :: rest =>
    if pat ≠ [] ∧ pat.isPrefixOf (c :: rest) then
      replaceAllAux pat fuel (rest.drop (pat.length - 1))
    else
      c :: replaceAllAux pat fuel rest

/-- Python `s.replace(pat, '')` (for the non-empty patterns the program uses):
deletes every non-overlapping occurrence of `pat`, scanning left to right. -/
def py_replace (s pat : String) : String := ⟨replaceAllAux pat.data s.data.length s.data⟩

/-- Lookup in a Python dict built from an association-list literal: a later
binding of the same key overwrites an earlier one, so the *last* matching pair
wins (`{'a': 1, 'a': 2}['a'] == 2`). -/
def dictGet (m : List (String × String)) (k : String) : Option String :=
  match m with
  | [] => none
  | (k', v) :: rest =>
    match dictGet rest k with
    | some v' => some v'
    | none => if k = k' then some v else none

/-- One entry of the generated dataset: the dict
`{'word': …, 'sign': …, 'sovExample': …, 'category': …}`. -/
structure Row where
  word : String
  sign : String
  sovExample : String
  category : String
deriving DecidableEq, Repr

/-- Vocabulary list `CISLR_VOCABULARY`, transcribed verbatim from the source. -/
def CISLR_VOCABULARY : List String := [
  "evacuate", "rescue", "distribute", "deploy", "search", "alert",
  "warn", "emergency", "danger", "safe", "shelter", "relief",
  "aid", "support", "assist", "protect", "injured", "injury",
  "medical", "medicine", "treat", "flood", "earthquake", "fire",
  "storm", "cyclone", "tsunami", "landslide", "disaster", "crisis",
  "victim", "survivor", "damage", "destroy", "rebuild", "recover",
  "evacuee", "refugee", "volunteer", "donation", "supply", "provision",
  "walk", "run", "jog", "sprint", "jump", "leap",
  "hop", "skip", "sit", "stand", "lie", "kneel",
  "crouch", "bend", "bow", "stretch", "crawl", "climb",
  "descend", "ascend", "swim", "dive", "float", "fly",
  "drive", "ride", "pedal", "roll", "spin", "rotate",
  "twist", "turn", "slide", "slip", "fall", "trip",
  "stumble", "push", "pull", "lift", "carry", "hold",
  "grab", "grasp", "grip", "release", "drop", "throw",
  "toss", "catch", "hit", "strike", "punch", "slap",
  "clap", "point", "wave", "shake", "touch", "feel",
  "scratch", "rub", "pat", "tap", "poke", "squeeze",
  "pinch", "twist", "tear", "fold", "unfold", "open",
  "close", "lock", "unlock", "turn", "eat", "drink",
  "cook", "bake", "fry", "boil", "steam", "grill",
  "clean", "wash", "wipe", "scrub", "sweep", "mop",
  "vacuum", "dust", "bath", "shower", "brush", "comb",
  "shave", "dress", "wear", "remove", "read", "write",
  "draw", "paint", "sketch", "color", "erase", "study",
  "learn", "teach", "explain", "demonstrate", "practice", "work",
  "type", "calculate", "measure", "weigh", "count", "talk",
  "speak", "say", "tell", "ask", "answer", "question",
  "reply", "call", "text", "email", "message", "chat",
  "discuss", "argue", "debate", "listen", "hear", "watch",
  "see", "look", "observe", "examine", "inspect", "read",
  "understand", "comprehend", "interpret", "translate", "sign", "gesture",
  "indicate", "signal", "express", "communicate", "play", "exercise",
  "train", "practice", "compete", "race", "win", "lose",
  "kick", "dribble", "pass", "shoot", "score", "defend",
  "attack", "bat", "bowl", "field", "catch", "throw",
  "pitch", "serve", "volley", "smash", "rally", "box",
  "wrestle", "fight", "punch", "kick", "yoga", "meditate",
  "balance", "pose", "build", "construct", "assemble", "install",
  "repair", "fix", "maintain", "design", "plan", "organize",
  "arrange", "prepare", "setup", "operate", "control", "manage",
  "supervise", "coordinate", "produce", "manufacture", "create", "make",
  "craft", "sell", "buy", "trade", "exchange", "purchase",
  "pay", "receive", "deliver", "transport", "load", "unload",
  "pack", "unpack", "inventory", "stock", "supply", "distribute",
  "allocate", "diagnose", "examine", "check", "test", "scan",
  "x-ray", "treat", "cure", "heal", "recover", "rehabilitate",
  "inject", "vaccinate", "medicate", "prescribe", "dose", "bandage",
  "dress", "stitch", "operate", "surgery", "measure", "temperature",
  "pressure", "pulse", "heartbeat", "cough", "sneeze", "vomit",
  "bleed", "hurt", "pain", "ache", "chop", "cut",
  "slice", "dice", "mince", "shred", "grate", "peel",
  "skin", "core", "pit", "seed", "mix", "stir",
  "blend", "whisk", "beat", "fold", "knead", "roll",
  "shape", "form", "mold", "season", "salt", "pepper",
  "spice", "flavor", "taste", "bake", "roast", "grill",
  "broil", "toast", "fry", "sauté", "pan-fry", "deep-fry",
  "boil", "simmer", "poach", "blanch", "steam", "serve",
  "plate", "garnish", "present"
]

/-- Vocabulary list `INCLUDE_VOCABULARY`, transcribed verbatim from the source. -/
def INCLUDE_VOCABULARY : List String := [
  "click", "tap", "swipe", "scroll", "zoom", "pinch",
  "type", "keyboard", "mouse", "touchscreen", "screen", "download",
  "upload", "send", "receive", "share", "forward", "save",
  "delete", "copy", "paste", "cut", "undo", "redo",
  "search", "browse", "navigate", "surf", "explore", "connect",
  "disconnect", "login", "logout", "signin", "signout", "charge",
  "battery", "power", "switch", "button", "press", "iron",
  "fold", "hang", "dry", "wash", "rinse", "spin",
  "load", "unload", "sort", "separate", "organize", "decorate",
  "arrange", "rearrange", "place", "position", "plug", "unplug",
  "connect", "disconnect", "light", "switch", "dim", "brighten",
  "heat", "cool", "warm", "freeze", "thaw", "lock",
  "unlock", "secure", "protect", "guard", "shop", "browse",
  "select", "choose", "pick", "decide", "buy", "purchase",
  "order", "checkout", "pay", "bargain", "negotiate", "discount",
  "sale", "offer", "return", "exchange", "refund", "complain",
  "pack", "wrap", "bag", "box", "deliver", "read",
  "write", "spell", "pronounce", "recite", "memorize", "remember",
  "recall", "review", "revise", "solve", "calculate", "compute",
  "add", "subtract", "multiply", "divide", "count", "measure",
  "experiment", "test", "observe", "record", "note", "present",
  "demonstrate", "explain", "clarify", "illustrate", "question", "query",
  "inquire", "investigate", "research", "meet", "greet", "welcome",
  "introduce", "present", "shake hands", "hug", "kiss", "embrace",
  "pat", "smile", "laugh", "giggle", "grin", "chuckle",
  "cry", "weep", "sob", "tear", "sad", "angry",
  "mad", "furious", "upset", "irritated", "happy", "joyful",
  "cheerful", "excited", "thrilled", "surprised", "shocked", "amazed",
  "astonished", "confused", "puzzled", "uncertain", "doubtful", "board",
  "embark", "disembark", "alight", "exit", "accelerate", "brake",
  "stop", "park", "reverse", "steer", "navigate", "direct",
  "guide", "lead", "travel", "journey", "commute", "transport",
  "transfer", "fly", "sail", "cruise", "voyage", "navigate"
]

/-- Vocabulary list `ISLTRANSLATE_VOCABULARY`, transcribed verbatim from the source. -/
def ISLTRANSLATE_VOCABULARY : List String := [
  "plant", "sow", "seed", "grow", "cultivate", "farm",
  "plow", "till", "dig", "hoe", "rake", "weed",
  "water", "irrigate", "spray", "fertilize", "compost", "harvest",
  "reap", "gather", "collect", "pick", "prune", "trim",
  "cut", "crop", "thresh", "build", "construct", "erect",
  "raise", "assemble", "demolish", "destroy", "dismantle", "tear down",
  "dig", "excavate", "drill", "bore", "tunnel", "pour",
  "concrete", "cement", "plaster", "paint", "hammer", "nail",
  "screw", "bolt", "weld", "saw", "cut", "drill",
  "sand", "polish", "measure", "level", "align", "square",
  "plumb", "recycle", "reuse", "reduce", "conserve", "preserve",
  "pollute", "contaminate", "dirty", "clean", "purify", "plant",
  "tree", "garden", "landscape", "green", "protect", "conserve",
  "save", "guard", "defend", "earn", "make", "gain",
  "profit", "income", "spend", "pay", "purchase", "buy",
  "invest", "save", "deposit", "withdraw", "transfer", "send",
  "borrow", "lend", "loan", "credit", "debt", "budget",
  "plan", "calculate", "account", "balance", "sue", "prosecute",
  "defend", "argue", "plead", "judge", "rule", "decide",
  "verdict", "sentence", "arrest", "detain", "custody", "jail",
  "prison", "fine", "penalty", "punish", "reward", "compensate"
]

/-- The `action_mappings` dict literal from `generate_action_dataset`, as an
association list in source order.  Python dict literals let a later duplicate
key overwrite an earlier one; `dictGet` below models that (last binding wins). -/
def ACTION_MAPPINGS : List (String × String) := [
  ("evacuate", "run"), ("rescue", "carry"), ("distribute", "give"),
  ("deploy", "send"), ("search", "look"), ("alert", "call"),
  ("warn", "wave"), ("emergency", "run"), ("danger", "stop"),
  ("safe", "protect"), ("shelter", "house"), ("relief", "help"),
  ("aid", "give"), ("support", "hold"), ("assist", "help"),
  ("protect", "guard"), ("injured", "fall"), ("injury", "hurt"),
  ("medical", "hospital"), ("medicine", "pill"), ("treat", "care"),
  ("flood", "water"), ("earthquake", "shake"), ("fire", "burn"),
  ("storm", "wind"), ("cyclone", "spin"), ("tsunami", "wave"),
  ("landslide", "fall"), ("disaster", "break"), ("crisis", "problem"),
  ("victim", "person"), ("survivor", "person"), ("damage", "break"),
  ("destroy", "break"), ("rebuild", "build"), ("recover", "heal"),
  ("walk", "walk"), ("run", "run"), ("jog", "run"),
  ("sprint", "run"), ("jump", "jump"), ("leap", "jump"),
  ("hop", "jump"), ("skip", "jump"), ("sit", "sit"),
  ("stand", "stand"), ("lie", "sleep"), ("kneel", "bow"),
  ("crouch", "bend"), ("bend", "bow"), ("bow", "bow"),
  ("stretch", "reach"), ("crawl", "move"), ("climb", "up"),
  ("descend", "down"), ("ascend", "up"), ("swim", "swim"),
  ("dive", "jump"), ("float", "swim"), ("fly", "fly"),
  ("drive", "car"), ("ride", "bike"), ("pedal", "cycle"),
  ("roll", "turn"), ("spin", "turn"), ("rotate", "turn"),
  ("twist", "turn"), ("turn", "turn"), ("slide", "move"),
  ("slip", "fall"), ("fall", "fall"), ("trip", "fall"),
  ("stumble", "fall"), ("push", "push"), ("pull", "pull"),
  ("lift", "carry"), ("carry", "carry"), ("hold", "hold"),
  ("grab", "take"), ("grasp", "hold"), ("grip", "hold"),
  ("release", "open"), ("drop", "fall"), ("throw", "throw"),
  ("toss", "throw"), ("catch", "catch"), ("hit", "strike"),
  ("strike", "hit"), ("punch", "hit"), ("slap", "hit"),
  ("clap", "clap"), ("point", "show"), ("wave", "wave"),
  ("shake", "shake"), ("touch", "touch"), ("feel", "touch"),
  ("scratch", "rub"), ("rub", "rub"), ("pat", "touch"),
  ("tap", "touch"), ("poke", "touch"), ("squeeze", "press"),
  ("pinch", "hold"), ("tear", "break"), ("fold", "fold"),
  ("unfold", "open"), ("open", "open"), ("close", "close"),
  ("lock", "lock"), ("unlock", "open"), ("eat", "eat"),
  ("drink", "drink"), ("cook", "cook"), ("bake", "cook"),
  ("fry", "cook"), ("boil", "cook"), ("steam", "cook"),
  ("grill", "cook"), ("clean", "wash"), ("wash", "wash"),
  ("wipe", "clean"), ("scrub", "wash"), ("sweep", "clean"),
  ("mop", "clean"), ("vacuum", "clean"), ("dust", "clean"),
  ("bath", "wash"), ("shower", "wash"), ("brush", "brush"),
  ("comb", "brush"), ("shave", "cut"), ("dress", "wear"),
  ("wear", "put"), ("remove", "take"), ("read", "read"),
  ("write", "write"), ("draw", "draw"), ("paint", "draw"),
  ("sketch", "draw"), ("color", "draw"), ("erase", "delete"),
  ("study", "learn"), ("learn", "learn"), ("teach", "teach"),
  ("explain", "show"), ("demonstrate", "show"), ("practice", "do"),
  ("work", "work"), ("type", "write"), ("calculate", "think"),
  ("measure", "check"), ("weigh", "measure"), ("count", "count"),
  ("talk", "speak"), ("speak", "speak"), ("say", "speak"),
  ("tell", "speak"), ("ask", "ask"), ("answer", "reply"),
  ("question", "ask"), ("reply", "answer"), ("call", "phone"),
  ("text", "write"), ("email", "write"), ("message", "send"),
  ("chat", "talk"), ("discuss", "talk"), ("argue", "fight"),
  ("debate", "talk"), ("listen", "hear"), ("hear", "hear"),
  ("watch", "see"), ("see", "look"), ("look", "see"),
  ("observe", "watch"), ("examine", "check"), ("inspect", "check"),
  ("understand", "know"), ("comprehend", "know"), ("interpret", "think"),
  ("translate", "change"), ("sign", "gesture"), ("gesture", "show"),
  ("indicate", "point"), ("signal", "wave"), ("express", "show"),
  ("communicate", "talk"), ("play", "play"), ("exercise", "move"),
  ("train", "practice"), ("compete", "fight"), ("race", "run"),
  ("win", "celebrate"), ("lose", "sad"), ("kick", "kick"),
  ("dribble", "move"), ("pass", "throw"), ("shoot", "throw"),
  ("score", "goal"), ("defend", "block"), ("attack", "fight"),
  ("bat", "hit"), ("bowl", "throw"), ("field", "catch"),
  ("pitch", "throw"), ("serve", "throw"), ("volley", "hit"),
  ("smash", "hit"), ("rally", "play"), ("box", "fight"),
  ("wrestle", "fight"), ("fight", "fight"), ("yoga", "balance"),
  ("meditate", "sit"), ("balance", "stand"), ("pose", "stand"),
  ("build", "make"), ("construct", "build"), ("assemble", "join"),
  ("install", "put"), ("repair", "fix"), ("fix", "repair"),
  ("maintain", "check"), ("design", "plan"), ("plan", "think"),
  ("organize", "arrange"), ("arrange", "order"), ("prepare", "make"),
  ("setup", "arrange"), ("operate", "use"), ("control", "manage"),
  ("manage", "lead"), ("supervise", "watch"), ("coordinate", "organize"),
  ("produce", "make"), ("manufacture", "make"), ("create", "make"),
  ("make", "make"), ("craft", "make"), ("sell", "give"),
  ("buy", "take"), ("trade", "exchange"), ("exchange", "swap"),
  ("purchase", "buy"), ("pay", "give"), ("receive", "take"),
  ("deliver", "bring"), ("transport", "carry"), ("load", "put"),
  ("unload", "take"), ("pack", "wrap"), ("unpack", "open"),
  ("inventory", "count"), ("stock", "store"), ("supply", "give"),
  ("allocate", "divide"), ("diagnose", "check"), ("examine", "look"),
  ("check", "see"), ("test", "try"), ("scan", "look"),
  ("cure", "heal"), ("heal", "fix"), ("recover", "improve"),
  ("rehabilitate", "exercise"), ("inject", "needle"), ("vaccinate", "inject"),
  ("medicate", "medicine"), ("prescribe", "write"), ("dose", "give"),
  ("bandage", "wrap"), ("stitch", "sew"), ("operate", "cut"),
  ("surgery", "operate"), ("temperature", "hot"), ("pressure", "push"),
  ("pulse", "heart"), ("heartbeat", "heart"), ("cough", "sick"),
  ("sneeze", "blow"), ("vomit", "sick"), ("bleed", "blood"),
  ("hurt", "pain"), ("pain", "hurt"), ("ache", "pain"),
  ("chop", "cut"), ("cut", "cut"), ("slice", "cut"),
  ("dice", "cut"), ("mince", "cut"), ("shred", "tear"),
  ("grate", "rub"), ("peel", "remove"), ("skin", "remove"),
  ("core", "remove"), ("pit", "remove"), ("seed", "remove"),
  ("mix", "stir"), ("stir", "mix"), ("blend", "mix"),
  ("whisk", "stir"), ("beat", "mix"), ("knead", "press"),
  ("shape", "form"), ("form", "make"), ("mold", "shape"),
  ("season", "add"), ("salt", "sprinkle"), ("pepper", "sprinkle"),
  ("spice", "add"), ("flavor", "taste"), ("taste", "eat"),
  ("roast", "cook"), ("broil", "cook"), ("toast", "cook"),
  ("sauté", "fry"), ("simmer", "boil"), ("poach", "boil"),
  ("blanch", "boil"), ("serve", "give"), ("plate", "put"),
  ("garnish", "decorate"), ("present", "show"), ("click", "press"),
  ("tap", "touch"), ("swipe", "move"), ("scroll", "move"),
  ("zoom", "enlarge"), ("keyboard", "type"), ("mouse", "point"),
  ("touchscreen", "touch"), ("screen", "see"), ("download", "receive"),
  ("upload", "send"), ("send", "give"), ("share", "give"),
  ("forward", "send"), ("save", "keep"), ("delete", "remove"),
  ("copy", "duplicate"), ("paste", "put"), ("undo", "reverse"),
  ("redo", "repeat"), ("search", "find"), ("browse", "look"),
  ("navigate", "go"), ("surf", "browse"), ("explore", "discover"),
  ("connect", "join"), ("disconnect", "separate"), ("login", "enter"),
  ("logout", "exit"), ("signin", "enter"), ("signout", "leave"),
  ("charge", "power"), ("battery", "energy"), ("power", "on"),
  ("switch", "toggle"), ("button", "press"), ("press", "push"),
  ("iron", "press"), ("hang", "suspend"), ("dry", "remove"),
  ("rinse", "wash"), ("spin", "rotate"), ("sort", "separate"),
  ("separate", "divide"), ("decorate", "beautify"), ("rearrange", "move"),
  ("place", "put"), ("position", "place"), ("plug", "connect"),
  ("unplug", "disconnect"), ("light", "shine"), ("dim", "darken"),
  ("brighten", "light"), ("heat", "warm"), ("cool", "cold"),
  ("warm", "heat"), ("freeze", "cold"), ("thaw", "melt"),
  ("secure", "protect"), ("guard", "protect"), ("shop", "buy"),
  ("browse", "look"), ("select", "choose"), ("choose", "pick"),
  ("pick", "select"), ("decide", "choose"), ("order", "request"),
  ("checkout", "pay"), ("bargain", "negotiate"), ("negotiate", "discuss"),
  ("discount", "reduce"), ("sale", "sell"), ("offer", "give"),
  ("return", "give"), ("refund", "return"), ("complain", "protest"),
  ("wrap", "cover"), ("bag", "pack"), ("box", "pack"),
  ("spell", "write"), ("pronounce", "say"), ("recite", "speak"),
  ("memorize", "remember"), ("remember", "recall"), ("recall", "think"),
  ("review", "check"), ("revise", "change"), ("solve", "answer"),
  ("compute", "calculate"), ("add", "plus"), ("subtract", "minus"),
  ("multiply", "times"), ("divide", "split"), ("experiment", "test"),
  ("record", "write"), ("note", "write"), ("clarify", "explain"),
  ("illustrate", "show"), ("query", "ask"), ("inquire", "ask"),
  ("investigate", "examine"), ("research", "study"), ("meet", "greet"),
  ("greet", "hello"), ("welcome", "greet"), ("introduce", "present"),
  ("hug", "embrace"), ("kiss", "love"), ("embrace", "hold"),
  ("smile", "happy"), ("laugh", "happy"), ("giggle", "laugh"),
  ("grin", "smile"), ("chuckle", "laugh"), ("cry", "sad"),
  ("weep", "cry"), ("sob", "cry"), ("tear", "sad"),
  ("sad", "unhappy"), ("angry", "mad"), ("mad", "angry"),
  ("furious", "angry"), ("upset", "sad"), ("irritated", "annoyed"),
  ("happy", "joy"), ("joyful", "happy"), ("cheerful", "happy"),
  ("excited", "enthusiastic"), ("thrilled", "excited"), ("surprised", "shock"),
  ("shocked", "surprise"), ("amazed", "wonder"), ("astonished", "surprised"),
  ("confused", "puzzled"), ("puzzled", "confused"), ("uncertain", "doubt"),
  ("doubtful", "unsure"), ("board", "enter"), ("embark", "board"),
  ("disembark", "exit"), ("alight", "descend"), ("exit", "leave"),
  ("accelerate", "quick"), ("brake", "stop"), ("stop", "halt"),
  ("park", "stop"), ("reverse", "backward"), ("steer", "direct"),
  ("direct", "guide"), ("guide", "lead"), ("lead", "direct"),
  ("travel", "journey"), ("journey", "go"), ("commute", "travel"),
  ("transfer", "change"), ("sail", "boat"), ("cruise", "sail"),
  ("voyage", "travel"), ("plant", "sow"), ("sow", "plant"),
  ("seed", "plant"), ("grow", "develop"), ("cultivate", "farm"),
  ("farm", "work"), ("plow", "dig"), ("till", "plow"),
  ("dig", "excavate"), ("hoe", "dig"), ("rake", "gather"),
  ("weed", "remove"), ("water", "pour"), ("irrigate", "water"),
  ("spray", "sprinkle"), ("fertilize", "feed"), ("compost", "fertilize"),
  ("harvest", "gather"), ("reap", "harvest"), ("gather", "collect"),
  ("collect", "gather"), ("prune", "cut"), ("trim", "cut"),
  ("crop", "harvest"), ("thresh", "separate"), ("demolish", "destroy"),
  ("dismantle", "take"), ("excavate", "dig"), ("drill", "bore"),
  ("bore", "drill"), ("tunnel", "dig"), ("pour", "flow"),
  ("concrete", "build"), ("cement", "join"), ("plaster", "cover"),
  ("hammer", "hit"), ("nail", "fasten"), ("screw", "turn"),
  ("bolt", "fasten"), ("weld", "join"), ("saw", "cut"),
  ("sand", "smooth"), ("polish", "shine"), ("level", "balance"),
  ("align", "straight"), ("square", "measure"), ("plumb", "straight"),
  ("recycle", "reuse"), ("reuse", "again"), ("reduce", "less"),
  ("conserve", "save"), ("preserve", "keep"), ("pollute", "dirty"),
  ("contaminate", "pollute"), ("dirty", "soil"), ("purify", "clean"),
  ("tree", "plant"), ("garden", "grow"), ("landscape", "beautify"),
  ("green", "plant"), ("earn", "make"), ("gain", "receive"),
  ("profit", "gain"), ("income", "earn"), ("spend", "use"),
  ("invest", "put"), ("deposit", "put"), ("withdraw", "take"),
  ("borrow", "loan"), ("lend", "give"), ("loan", "lend"),
  ("credit", "borrow"), ("debt", "owe"), ("budget", "plan"),
  ("account", "record"), ("balance", "equal"), ("sue", "prosecute"),
  ("prosecute", "accuse"), ("defend", "protect"), ("plead", "beg"),
  ("judge", "decide"), ("rule", "judge"), ("decide", "choose"),
  ("verdict", "decision"), ("sentence", "punish"), ("arrest", "catch"),
  ("detain", "hold"), ("custody", "jail"), ("jail", "prison"),
  ("prison", "lock"), ("fine", "penalty"), ("penalty", "punish"),
  ("punish", "discipline"), ("reward", "prize"), ("compensate", "pay")
]

/-- The `categories` dict flattened to (word, category) pairs in iteration
order, exactly as the `word_to_category[word] = category` loop visits them;
a later pair for the same word overwrites an earlier one (last wins). -/
def CATEGORY_PAIRS : List (String × String) := [
  ("evacuate", "Disaster Management"), ("rescue", "Disaster Management"), ("distribute", "Disaster Management"),
  ("deploy", "Disaster Management"), ("search", "Disaster Management"), ("alert", "Disaster Management"),
  ("warn", "Disaster Management"), ("emergency", "Disaster Management"), ("danger", "Disaster Management"),
  ("safe", "Disaster Management"), ("shelter", "Disaster Management"), ("relief", "Disaster Management"),
  ("walk", "Movement Actions"), ("run", "Movement Actions"), ("jump", "Movement Actions"),
  ("sit", "Movement Actions"), ("stand", "Movement Actions"), ("climb", "Movement Actions"),
  ("swim", "Movement Actions"), ("fly", "Movement Actions"), ("drive", "Movement Actions"),
  ("ride", "Movement Actions"), ("jog", "Movement Actions"), ("sprint", "Movement Actions"),
  ("leap", "Movement Actions"), ("push", "Hand Actions"), ("pull", "Hand Actions"),
  ("lift", "Hand Actions"), ("carry", "Hand Actions"), ("hold", "Hand Actions"),
  ("grab", "Hand Actions"), ("throw", "Hand Actions"), ("catch", "Hand Actions"),
  ("touch", "Hand Actions"), ("point", "Hand Actions"), ("wave", "Hand Actions"),
  ("shake", "Hand Actions"), ("eat", "Daily Activities"), ("drink", "Daily Activities"),
  ("cook", "Daily Activities"), ("clean", "Daily Activities"), ("wash", "Daily Activities"),
  ("read", "Daily Activities"), ("write", "Daily Activities"), ("study", "Daily Activities"),
  ("work", "Daily Activities"), ("play", "Daily Activities"), ("brush", "Daily Activities"),
  ("bath", "Daily Activities"), ("talk", "Communication"), ("speak", "Communication"),
  ("listen", "Communication"), ("watch", "Communication"), ("call", "Communication"),
  ("text", "Communication"), ("email", "Communication"), ("sign", "Communication"),
  ("gesture", "Communication"), ("ask", "Communication"), ("answer", "Communication"),
  ("exercise", "Sports & Exercise"), ("kick", "Sports & Exercise"), ("bat", "Sports & Exercise"),
  ("serve", "Sports & Exercise"), ("box", "Sports & Exercise"), ("wrestle", "Sports & Exercise"),
  ("yoga", "Sports & Exercise"), ("meditate", "Sports & Exercise"), ("train", "Sports & Exercise"),
  ("race", "Sports & Exercise"), ("build", "Professional"), ("repair", "Professional"),
  ("operate", "Professional"), ("manage", "Professional"), ("produce", "Professional"),
  ("sell", "Professional"), ("deliver", "Professional"), ("inventory", "Professional"),
  ("design", "Professional"), ("plan", "Professional"), ("diagnose", "Medical"),
  ("examine", "Medical"), ("treat", "Medical"), ("inject", "Medical"),
  ("bandage", "Medical"), ("operate", "Medical"), ("measure", "Medical"),
  ("cough", "Medical"), ("heal", "Medical"), ("cure", "Medical"),
  ("chop", "Food Preparation"), ("cut", "Food Preparation"), ("mix", "Food Preparation"),
  ("stir", "Food Preparation"), ("bake", "Food Preparation"), ("fry", "Food Preparation"),
  ("boil", "Food Preparation"), ("serve", "Food Preparation"), ("slice", "Food Preparation"),
  ("peel", "Food Preparation"), ("click", "Technology"), ("type", "Technology"),
  ("download", "Technology"), ("save", "Technology"), ("search", "Technology"),
  ("connect", "Technology"), ("charge", "Technology"), ("upload", "Technology"),
  ("delete", "Technology"), ("browse", "Technology"), ("iron", "Household"),
  ("fold", "Household"), ("hang", "Household"), ("load", "Household"),
  ("decorate", "Household"), ("plug", "Household"), ("heat", "Household"),
  ("lock", "Household"), ("sweep", "Household"), ("mop", "Household"),
  ("shop", "Shopping"), ("browse", "Shopping"), ("buy", "Shopping"),
  ("bargain", "Shopping"), ("return", "Shopping"), ("pack", "Shopping"),
  ("select", "Shopping"), ("choose", "Shopping"), ("pay", "Shopping"),
  ("spell", "Education"), ("memorize", "Education"), ("solve", "Education"),
  ("experiment", "Education"), ("present", "Education"), ("research", "Education"),
  ("learn", "Education"), ("teach", "Education"), ("practice", "Education"),
  ("meet", "Social"), ("greet", "Social"), ("smile", "Social"),
  ("laugh", "Social"), ("cry", "Social"), ("hug", "Social"),
  ("kiss", "Social"), ("welcome", "Social"), ("introduce", "Social"),
  ("board", "Transportation"), ("accelerate", "Transportation"), ("brake", "Transportation"),
  ("steer", "Transportation"), ("travel", "Transportation"), ("sail", "Transportation"),
  ("exit", "Transportation"), ("park", "Transportation"), ("commute", "Transportation"),
  ("plant", "Agricultural"), ("plow", "Agricultural"), ("water", "Agricultural"),
  ("harvest", "Agricultural"), ("prune", "Agricultural"), ("grow", "Agricultural"),
  ("cultivate", "Agricultural"), ("seed", "Agricultural"), ("construct", "Construction"),
  ("demolish", "Construction"), ("drill", "Construction"), ("hammer", "Construction"),
  ("saw", "Construction"), ("measure", "Construction"), ("weld", "Construction"),
  ("nail", "Construction"), ("recycle", "Environmental"), ("conserve", "Environmental"),
  ("pollute", "Environmental"), ("plant", "Environmental"), ("protect", "Environmental"),
  ("preserve", "Environmental"), ("reduce", "Environmental"), ("reuse", "Environmental"),
  ("earn", "Financial"), ("spend", "Financial"), ("save", "Financial"),
  ("borrow", "Financial"), ("budget", "Financial"), ("invest", "Financial"),
  ("pay", "Financial"), ("receive", "Financial"), ("sue", "Legal"),
  ("judge", "Legal"), ("arrest", "Legal"), ("fine", "Legal"),
  ("prosecute", "Legal"), ("defend", "Legal"), ("rule", "Legal")
]

/-- The words the generator iterates over, before dedup/sort: the concatenation
`CISLR_VOCABULARY + INCLUDE_VOCABULARY + ISLTRANSLATE_VOCABULARY` fed to `set(...)`. -/
def allWords : List String := CISLR_VOCABULARY ++ INCLUDE_VOCABULARY ++ ISLTRANSLATE_VOCABULARY

/-- `word.replace('ing', '').replace('ed', '').replace('es', '').replace('s', '')`
from `generate_action_dataset` (the `base_word` local). -/
def base_word (w : String) : String :=
  py_replace (py_replace (py_replace (py_replace w "ing") "ed") "es") "s"

/-- `action_mappings.get(word, action_mappings.get(base_word, word.lower()))`:
the map-only resolution path, before any inventory validation. -/
def mapResolved (m : List (String × String)) (w : String) : String :=
  match dictGet m w with
  | some v => v
  | none =>
    match dictGet m (base_word w) with
    | some v => v
    | none => pyLower w

/-- The word→sign resolution of `generate_action_dataset` (lines 452–465):
map lookup with naive-stem fallback, then validation against the inventory with
the fallback chain word → stem → `'do'` (else `'work'`). -/
def resolve_sign (m : List (String × String)) (avail : List String) (w : String) : String :=
  if pyLower (mapResolved m w) ∈ avail then mapResolved m w
  else if pyLower w ∈ avail then pyLower w
  else if pyLower (base_word w) ∈ avail then pyLower (base_word w)
  else if "do" ∈ avail then "do"
  else "work"

/-- `word_to_category.get(word, 'General')`. -/
def catOf (w : String) : String := (dictGet CATEGORY_PAIRS w).getD "General"

/-- The SOV example synthesizer: the `if category == …` chain choosing one of
four fixed templates. -/
def sov_example (w category : String) : String :=
  if category = "Disaster Management" then "I people " ++ w
  else if category = "Movement Actions" ∨ category = "Hand Actions" then "I now " ++ w
  else if containsSub category "Daily" || containsSub category "Activities" then "I " ++ w ++ " do"
  else "I " ++ w

/-- The word of the `-ing` variant row:
`f"{word}ing" if not word.endswith('e') else f"{word[:-1]}ing"`. -/
def ingForm (w : String) : String :=
  if pyEndsWith w "e" then dropLastStr w ++ "ing" else w ++ "ing"

/-- The word of the `-ed` variant row:
`f"{word}ed" if not word.endswith('e') else f"{word}d"`. -/
def edForm (w : String) : String :=
  if pyEndsWith w "e" then w ++ "d" else w ++ "ed"

/-- The rows appended for one vocabulary word: the base row, then the `-ing`
variant unless the word already ends in `ing`, then the `-ed` variant unless it
already ends in `ed` (lines 477–501). -/
def rowsFor (m : List (String × String)) (avail : List String) (w : String) : List Row :=
  let category := catOf w
  let sign := resolve_sign m avail w
  ⟨w, sign, sov_example w category, category⟩ ::
    ((if pyEndsWith w "ing" then [] else
        [⟨ingForm w, sign, "I " ++ w ++ "ing am", category⟩]) ++
     (if pyEndsWith w "ed" then [] else
        [⟨edForm w, sign, "I yesterday " ++ w ++ "ed", category⟩]))

/-- Boolean form of lexicographic string order, for `sorted(...)`. -/
def leB (a b : String) : Bool := decide (a ≤ b)

/-- `sorted(set(vocab))`: deduplicate, then sort lexicographically ascending. -/
def sortedWords (vocab : List String) : List String := vocab.dedup.mergeSort leB

/-- `generate_action_dataset`, parameterised by the aggregated vocabulary and
the asset inventory `AVAILABLE_SIGNS` (a module-level global in the source;
passed explicitly here): iterate the sorted deduplicated vocabulary and emit
each word's rows. -/
def generate_action_dataset (vocab : List String) (avail : List String) : List Row :=
  (sortedWords vocab).flatMap (rowsFor ACTION_MAPPINGS avail)

/-- `Path(f).stem` for a name ending in `.sigml`: drop the extension. -/
def sigmlStem (f : String) : String := ⟨f.data.take (f.data.length - 6)⟩

/-- `load_available_signs`: scan the sign directory (modelled as `none` when the
directory does not exist, `some files` for its listing), keep `*.sigml` files,
and record each lower-cased stem.  A missing directory yields the empty set. -/
def load_available_signs (dir : Option (List String)) : List String :=
  match dir with
  | none => []
  | some files =>
    (files.filter (fun f => pyEndsWith f ".sigml")).map (fun f => pyLower (sigmlStem f))

/-- Does a CSV field need quoting under `csv.writer`'s default QUOTE_MINIMAL
(field contains the delimiter, the quote char, or a line-terminator char)? -/
def csvNeedsQuote (s : String) : Bool :=
  s.data.any (fun c => c == ',' || c == '"' || c == '\r' || c == '\n')

/-- A CSV field that needs no quoting and is written verbatim. -/
def plainField (s : String) : Bool := !csvNeedsQuote s

/-- All four fields of the row are written verbatim by the CSV writer. -/
def plainRow (r : Row) : Bool :=
  plainField r.word && plainField r.sign && plainField r.sovExample && plainField r.category

/-- `csv.writer` field encoding: quote and double embedded quotes when needed. -/
def csvEscape (s : String) : String :=
  if csvNeedsQuote s then
    "\"" ++ ⟨s.data.flatMap (fun c => if c == '"' then ['"', '"'] else [c])⟩ ++ "\""
  else s

/-- One data line of `export_to_csv`: the four fields in the fixed
`word, sign, sovExample, category` order, comma-joined. -/
def csvRow (r : Row) : String :=
  csvEscape r.word ++ "," ++ csvEscape r.sign ++ "," ++
    csvEscape r.sovExample ++ "," ++ csvEscape r.category

/-- `export_to_csv` as its list of lines: the header row written by
`writeheader()` followed by one line per record from `writerows`. -/
def export_to_csv (ds : List Row) : List String :=
  "word,sign,sovExample,category" :: ds.map csvRow

/-- The byte content of the CSV file: each line followed by `\r\n`. -/
def csvFile (ds : List Row) : String :=
  (export_to_csv ds).foldr (fun line acc => line ++ "\r\n" ++ acc) ""

/-- `export_to_json` at the record level: `json.dump(dataset, …)` serialises
exactly the records of the collection, in order. -/
def export_to_json (ds : List Row) : List Row := ds

/-- JSON string escaping (the program's data contains no control characters,
so escaping quote and backslash is exact here). -/
def jsonStr (s : String) : String :=
  "\"" ++ ⟨s.data.flatMap (fun c =>
    if c == '"' then ['\\', '"'] else if c == '\\' then ['\\', '\\'] else [c])⟩ ++ "\""

/-- One record as rendered by `json.dump(…, indent=2)`, keys in dict insertion
order `word, sign, sovExample, category`. -/
def jsonObj (r : Row) : String :=
  "  \x7b\n    \"word\": " ++ jsonStr r.word ++
    ",\n    \"sign\": " ++ jsonStr r.sign ++
    ",\n    \"sovExample\": " ++ jsonStr r.sovExample ++
    ",\n    \"category\": " ++ jsonStr r.category ++ "\n  \x7d"

/-- The byte content of the JSON file written by `export_to_json`. -/
def jsonFile (ds : List Row) : String :=
  match ds with
  | [] => "[]"
  | _ => "[\n" ++ String.intercalate ",\n" (ds.map jsonObj) ++ "\n]"

/-- One array element written by `generate_typescript_dataset`. -/
def tsRow (r : Row) : String :=
  "  \x7b word: \x27" ++ r.word ++ "\x27, sign: \x27" ++ r.sign ++
    "\x27, sovExample: \x27" ++ r.sovExample ++ "\x27, category: \x27" ++
    r.category ++ "\x27 \x7d,\n"

/-- The byte content of the TypeScript file written by
`generate_typescript_dataset`. -/
def generate_typescript_dataset (ds : List Row) : String :=
  "// Auto-generated ISL Dataset\n// Total entries: " ++ toString ds.length ++
    "\n// Sources: CISLR (~4,700), INCLUDE (~4,287), ISLTranslate (~31k)\n\nexport const ISL_DATASET = [\n" ++
    ds.foldr (fun r acc => tsRow r ++ acc) "" ++ "];\n"

/-- Split a character list at each comma (CSV parsing for unquoted lines). -/
def splitCh : List Char → List (List Char)
  | [] => [[]]
  | c :: rest =>
    if c == ',' then [] :: splitCh rest
    else
      match splitCh rest with
      | [] => [[c]]
      | g :: gs => (c :: g) :: gs

/-- Split a string at each comma. -/
def splitOnComma (s : String) : List String := (splitCh s.data).map (fun l => ⟨l⟩)

/-- The stemming step exactly as the specification claim words it: strip the
trailing suffixes `ing`/`ed`/`es`/`s`, removing only occurrences at the end of
the word.  (Spec-side definition, to be compared with `base_word`.) -/
def stemSpecTrailing (w : String) : String :=
  if pyEndsWith w "ing" then ⟨w.data.take (w.data.length - 3)⟩
  else if pyEndsWith w "ed" then ⟨w.data.take (w.data.length - 2)⟩
  else if pyEndsWith w "es" then ⟨w.data.take (w.data.length - 2)⟩
  else if pyEndsWith w "s" then ⟨w.data.take (w.data.length - 1)⟩
  else w

/-- Accumulator-style deletion of every non-overlapping occurrence of `pat`,
written independently of `replaceAllAux` (spec-side formulation for the
amended claim C2). -/
def removeEveryAux (pat : List Char) : Nat → List Char → List Char → List Char
  | _, acc, [] => acc.reverse
  | 0, acc, l => acc.reverse ++ l
  | fuel + 1, acc, c :: rest =>
    if pat ≠ [] ∧ pat.isPrefixOf (c :: rest) then
      removeEveryAux pat fuel acc (rest.drop (pat.length - 1))
    else
      removeEveryAux pat fuel (c :: acc) rest

/-- Delete every occurrence of `pat` anywhere in `s`, scanning left to right
(spec-side formulation for the amended claim C2). -/
def removeEvery (s pat : String) : String :=
  ⟨removeEveryAux pat.data s.data.length [] s.data⟩

set_option maxRecDepth 100000

/-! ### Helper lemmas -/

theorem pyEndsWith_iff {w sfx : String} : pyEndsWith w sfx = true ↔ sfx.data <:+ w.data := by
  unfold pyEndsWith
  exact List.isSuffixOf_iff_suffix

theorem getLast?_of_pyEndsWith {w sfx : String} (h : pyEndsWith w sfx = true)
    (hne : sfx.data ≠ []) : w.data.getLast? = sfx.data.getLast? := by
  obtain ⟨t, ht⟩ := pyEndsWith_iff.mp h
  rw [← ht, List.getLast?_append]
  cases hl : sfx.data.getLast? with
  | none => exact absurd (List.getLast?_eq_none_iff.mp hl) hne
  | some c => rfl

theorem pyEndsWith_false_of_lastChar {w s₁ s₂ : String} {c₁ c₂ : Char}
    (h : pyEndsWith w s₁ = true) (h₁ : s₁.data.getLast? = some c₁)
    (h₂ : s₂.data.getLast? = some c₂) (hne : c₁ ≠ c₂) : pyEndsWith w s₂ = false := by
  by_contra hc
  rw [Bool.not_eq_false] at hc
  have e₁ : w.data.getLast? = some c₁ := by
    rw [getLast?_of_pyEndsWith h (by intro he; rw [he] at h₁; simp at h₁), h₁]
  have e₂ : w.data.getLast? = some c₂ := by
    rw [getLast?_of_pyEndsWith hc (by intro he; rw [he] at h₂; simp at h₂), h₂]
  rw [e₁] at e₂
  exact hne (Option.some.inj e₂)

theorem strLen_ne {s t : String} (h : s.length ≠ t.length) : s ≠ t :=
  fun he => h (congrArg String.length he)

theorem strLen_data (s : String) : s.length = s.data.length := rfl

theorem pyLower_length (s : String) : (pyLower s).length = s.length := by
  rw [strLen_data, strLen_data]
  show (s.data.map lowerChar).length = s.data.length
  rw [List.length_map]

theorem length_eq_zero_iff_empty {s : String} : s.length = 0 ↔ s = "" := by
  constructor
  · intro h
    cases s with
    | mk data =>
      cases data with
      | nil => rfl
      | cons c cs => simp [strLen_data] at h
  · intro h
    subst h
    rfl

theorem pyLower_ne_empty {s : String} (h : s ≠ "") : pyLower s ≠ "" := by
  intro hc
  apply h
  apply length_eq_zero_iff_empty.mp
  rw [← pyLower_length s, hc]
  rfl

theorem dropLastStr_length (s : String) : (dropLastStr s).length = s.length - 1 := by
  rw [strLen_data, strLen_data]
  show s.data.dropLast.length = s.data.length - 1
  rw [List.length_dropLast]

theorem dictGet_mem_values {k v : String} :
    ∀ {m : List (String × String)}, dictGet m k = some v → v ∈ m.map Prod.snd := by
  intro m
  induction m with
  | nil => intro h; simp [dictGet] at h
  | cons p rest ih =>
    intro h
    cases hr : dictGet rest k with
    | some v' =>
      simp only [dictGet, hr] at h
      have hv : v' = v := Option.some.inj h
      subst hv
      exact List.mem_cons_of_mem _ (ih hr)
    | none =>
      simp only [dictGet, hr] at h
      split at h
      · have hv : p.2 = v := Option.some.inj h
        subst hv
        exact List.mem_cons_self _ _
      · exact absurd h (by simp)

/-- Facts about the aggregated vocabulary, checked by evaluation: every word is
non-empty, already lower-case, and its naive stem is non-empty and lower-case. -/
theorem allWords_facts :
    allWords.all (fun w => (pyLower w == w) && (w != "") &&
      (pyLower (base_word w) == base_word w) && (base_word w != "")) = true := by decide

/-- Facts about the action map, checked by evaluation: every mapped action is a
non-empty lower-case string. -/
theorem mapValues_facts :
    ACTION_MAPPINGS.all (fun p => (pyLower p.2 == p.2) && (p.2 != "")) = true := by decide

theorem allWords_fact_of_mem {w : String} (hw : w ∈ allWords) :
    pyLower w = w ∧ w ≠ "" ∧ pyLower (base_word w) = base_word w ∧ base_word w ≠ "" := by
  have h := List.all_eq_true.mp allWords_facts w hw
  simp only [Bool.and_eq_true, beq_iff_eq, bne_iff_ne] at h
  exact ⟨h.1.1.1, h.1.1.2, h.1.2, h.2⟩

theorem mapValue_fact_of_mem {v : String} (hv : v ∈ ACTION_MAPPINGS.map Prod.snd) :
    pyLower v = v ∧ v ≠ "" := by
  obtain ⟨p, hp, hpv⟩ := List.mem_map.mp hv
  have h := List.all_eq_true.mp mapValues_facts p hp
  simp only [Bool.and_eq_true, beq_iff_eq, bne_iff_ne] at h
  rw [← hpv]
  exact h

/-- The map-only resolution for a vocabulary word is a non-empty lower-case
string (it is either one of the map's action values or the lowered word). -/
theorem mapResolved_facts {w : String} (hw : w ∈ allWords) :
    pyLower (mapResolved ACTION_MAPPINGS w) = mapResolved ACTION_MAPPINGS w ∧
      mapResolved ACTION_MAPPINGS w ≠ "" := by
  obtain ⟨hlw, hne, _, _⟩ := allWords_fact_of_mem hw
  unfold mapResolved
  cases h1 : dictGet ACTION_MAPPINGS w with
  | some v => exact mapValue_fact_of_mem (dictGet_mem_values h1)
  | none =>
    cases h2 : dictGet ACTION_MAPPINGS (base_word w) with
    | some v => exact mapValue_fact_of_mem (dictGet_mem_values h2)
    | none =>
      rw [hlw]
      exact ⟨hlw, hne⟩

theorem resolve_sign_ne_empty {w : String} (hw : w ∈ allWords) (avail : List String) :
    resolve_sign ACTION_MAPPINGS avail w ≠ "" := by
  obtain ⟨hlw, hne, hlb, hbne⟩ := allWords_fact_of_mem hw
  obtain ⟨_, h0ne⟩ := mapResolved_facts hw
  unfold resolve_sign
  split_ifs with h1 h2 h3 h4
  · exact h0ne
  · exact pyLower_ne_empty hne
  · exact pyLower_ne_empty hbne
  · intro hc
    exact absurd hc (by decide)
  · intro hc
    exact absurd hc (by decide)

theorem resolve_sign_mem {w : String} (hw : w ∈ allWords) {avail : List String}
    (hcand : mapResolved ACTION_MAPPINGS w ∈ avail ∨ w ∈ avail ∨ base_word w ∈ avail) :
    resolve_sign ACTION_MAPPINGS avail w ∈ avail := by
  obtain ⟨hlw, hne, hlb, hbne⟩ := allWords_fact_of_mem hw
  obtain ⟨hl0, h0ne⟩ := mapResolved_facts hw
  unfold resolve_sign
  rw [hl0, hlw, hlb]
  split_ifs with h1 h2 h3 h4
  · exact h1
  · exact h2
  · exact h3
  · exact h4
  · rcases hcand with hc | hc | hc
    · exact absurd hc h1
    · exact absurd hc h2
    · exact absurd hc h3

/-! ### Claims C4, C5, C1, C2 -/

/-- C4: with asset inventory `{"run", "do"}` the program's word→action map sends
"evacuate" to "run" and the resolver returns "run"; for "xyz123" (no map entry
for the word or its stem, no inventory match) the resolver returns "do". -/
theorem C4_resolver_examples :
    dictGet ACTION_MAPPINGS "evacuate" = some "run" ∧
    resolve_sign ACTION_MAPPINGS ["run", "do"] "evacuate" = "run" ∧
    resolve_sign ACTION_MAPPINGS ["run", "do"] "xyz123" = "do" := by decide

/-- C5: for every word of the aggregated vocabulary the resolver yields a
non-empty string, and whenever the inventory is non-empty and any candidate of
the fallback chain (map-resolved action, the word itself, or its naive stem) is
a member of the inventory, the resolved sign is a member of the inventory. -/
theorem C5_resolution_total :
    ∀ (avail : List String) (w : String), w ∈ allWords →
      resolve_sign ACTION_MAPPINGS avail w ≠ "" ∧
      (avail ≠ [] →
        (mapResolved ACTION_MAPPINGS w ∈ avail ∨ w ∈ avail ∨ base_word w ∈ avail) →
        resolve_sign ACTION_MAPPINGS avail w ∈ avail) := by
  intro avail w hw
  exact ⟨resolve_sign_ne_empty hw avail, fun _ hcand => resolve_sign_mem hw hcand⟩

/-- Witness for C5 at the vocabulary word "walk" with inventory `["walk"]`. -/
theorem C5_witness :
    ("walk" ∈ allWords) ∧ (["walk"] ≠ ([] : List String)) ∧
      resolve_sign ACTION_MAPPINGS ["walk"] "walk" ≠ "" ∧
      resolve_sign ACTION_MAPPINGS ["walk"] "walk" ∈ ["walk"] := by
  have h := C5_resolution_total ["walk"] "walk" (by decide)
  exact ⟨by decide, by decide, h.1, h.2 (by decide) (Or.inr (Or.inl (by decide)))⟩

/-- C1 counterexample: with an empty inventory the map-only path for "evacuate"
yields "run", yet the resolver returns the hardcoded fallback "work" — the
inventory-validation check filters every map-resolved action out rather than
letting resolution fall back through the map-only path. -/
theorem C1_counterexample :
    dictGet ACTION_MAPPINGS "evacuate" = some "run" ∧
    mapResolved ACTION_MAPPINGS "evacuate" = "run" ∧
    resolve_sign ACTION_MAPPINGS [] "evacuate" = "work" ∧
    ("work" : String) ≠ "run" := by decide

/-- C1 amended: a missing or empty asset directory yields the empty inventory
without failing, and no dataset row is dropped (every vocabulary word still
produces its rows); however every resolved sign then becomes the final
hardcoded fallback "work" — the inventory check rejects every candidate instead
of passing map-resolved actions through. -/
theorem C1_empty_inventory_behaviour :
    load_available_signs none = [] ∧
    load_available_signs (some []) = [] ∧
    (∀ (m : List (String × String)) (w : String), resolve_sign m [] w = "work") ∧
    (∀ (vocab avail : List String) (w : String), w ∈ vocab →
      ∃ r ∈ generate_action_dataset vocab avail, r.word = w) := by
  refine ⟨rfl, rfl, fun m w => rfl, ?_⟩
  intro vocab avail w hw
  refine ⟨⟨w, resolve_sign ACTION_MAPPINGS avail w, sov_example w (catOf w), catOf w⟩, ?_, rfl⟩
  unfold generate_action_dataset
  apply List.mem_flatMap.mpr
  refine ⟨w, ?_, ?_⟩
  · unfold sortedWords
    exact List.mem_mergeSort.mpr (List.mem_dedup.mpr hw)
  · unfold rowsFor
    exact List.Mem.head _

/-- Witness for C1 at the one-word vocabulary `["walk"]` with empty inventory. -/
theorem C1_witness :
    ("walk" ∈ ["walk"]) ∧ ∃ r ∈ generate_action_dataset ["walk"] [], r.word = "walk" :=
  ⟨by decide, C1_empty_inventory_behaviour.2.2.2 ["walk"] [] "walk" (by decide)⟩

/-- C2 counterexample: the naive stem of "sit" under the code is "it" (Python
`replace` deletes the interior/leading "s" too), while stripping only trailing
suffixes as the claim states would leave "sit" unchanged. -/
theorem C2_counterexample :
    base_word "sit" = "it" ∧ stemSpecTrailing "sit" = "sit" ∧
      base_word "sit" ≠ stemSpecTrailing "sit" := by decide

theorem removeEveryAux_eq (pat : List Char) :
    ∀ (fuel : Nat) (acc l : List Char),
      removeEveryAux pat fuel acc l = acc.reverse ++ replaceAllAux pat fuel l := by
  intro fuel
  induction fuel with
  | zero =>
    intro acc l
    cases l with
    | nil => simp [removeEveryAux, replaceAllAux]
    | cons c rest => simp [removeEveryAux, replaceAllAux]
  | succ n ih =>
    intro acc l
    cases l with
    | nil => simp [removeEveryAux, replaceAllAux]
    | cons c rest =>
      simp only [removeEveryAux, replaceAllAux]
      split_ifs with h
      · exact ih acc _
      · rw [ih (c :: acc) rest]
        simp

theorem removeEvery_eq_py_replace (s pat : String) : removeEvery s pat = py_replace s pat := by
  unfold removeEvery py_replace
  rw [removeEveryAux_eq]
  rfl

/-- C2 amended: the naive stem deletes every (non-overlapping, left-to-right)
occurrence of "ing", then "ed", then "es", then "s", anywhere in the word — not
only at its end. -/
theorem C2_base_word_removes_all :
    ∀ w : String,
      base_word w =
        removeEvery (removeEvery (removeEvery (removeEvery w "ing") "ed") "es") "s" := by
  intro w
  simp only [removeEvery_eq_py_replace]
  rfl

/-! ### Template lengths and suffix conflicts -/

theorem sov_example_length (w c : String) :
    (sov_example w c).length = 9 + w.length ∨ (sov_example w c).length = 6 + w.length ∨
    (sov_example w c).length = 5 + w.length ∨ (sov_example w c).length = 2 + w.length := by
  have e9 : ("I people " : String).length = 9 := rfl
  have e6 : ("I now " : String).length = 6 := rfl
  have e2 : ("I " : String).length = 2 := rfl
  have e3 : (" do" : String).length = 3 := rfl
  unfold sov_example
  split_ifs with h1 h2 h3
  · left; rw [String.length_append, e9]
  · right; left; rw [String.length_append, e6]
  · right; right; left; rw [String.length_append, String.length_append, e2, e3]; omega
  · right; right; right; rw [String.length_append, e2]

theorem sov_base_ne_ing (w c : String) : sov_example w c ≠ "I " ++ w ++ "ing am" := by
  apply strLen_ne
  have e2 : ("I " : String).length = 2 := rfl
  have e6 : ("ing am" : String).length = 6 := rfl
  have hr : ("I " ++ w ++ "ing am" : String).length = 8 + w.length := by
    rw [String.length_append, String.length_append, e2, e6]; omega
  rcases sov_example_length w c with h | h | h | h <;> rw [h, hr] <;> omega

theorem sov_base_ne_ed (w c : String) : sov_example w c ≠ "I yesterday " ++ w ++ "ed" := by
  apply strLen_ne
  have e12 : ("I yesterday " : String).length = 12 := rfl
  have e2 : ("ed" : String).length = 2 := rfl
  have hr : ("I yesterday " ++ w ++ "ed" : String).length = 14 + w.length := by
    rw [String.length_append, String.length_append, e12, e2]; omega
  rcases sov_example_length w c with h | h | h | h <;> rw [h, hr] <;> omega

theorem sov_ing_ne_ed (w : String) :
    ("I " ++ w ++ "ing am" : String) ≠ "I yesterday " ++ w ++ "ed" := by
  apply strLen_ne
  have e2 : ("I " : String).length = 2 := rfl
  have e6 : ("ing am" : String).length = 6 := rfl
  have e12 : ("I yesterday " : String).length = 12 := rfl
  have e2' : ("ed" : String).length = 2 := rfl
  rw [String.length_append, String.length_append, String.length_append, String.length_append,
    e2, e6, e12, e2']
  omega

theorem not_e_of_ing {w : String} (h : pyEndsWith w "ing" = true) : pyEndsWith w "e" = false :=
  pyEndsWith_false_of_lastChar h rfl rfl (by decide)

theorem not_e_of_ed {w : String} (h : pyEndsWith w "ed" = true) : pyEndsWith w "e" = false :=
  pyEndsWith_false_of_lastChar h rfl rfl (by decide)

theorem not_ing_of_ed {w : String} (h : pyEndsWith w "ed" = true) : pyEndsWith w "ing" = false :=
  pyEndsWith_false_of_lastChar h rfl rfl (by decide)

theorem not_ing_of_e {w : String} (h : pyEndsWith w "e" = true) : pyEndsWith w "ing" = false :=
  pyEndsWith_false_of_lastChar h rfl rfl (by decide)

theorem not_ed_of_e {w : String} (h : pyEndsWith w "e" = true) : pyEndsWith w "ed" = false :=
  pyEndsWith_false_of_lastChar h rfl rfl (by decide)

/-! ### Claims C7, C6, C3, C10 -/

/-- C7: the example synthesizer is a pure function of (word, category) — the
examples for "walk" do not depend on the action map or the inventory — "walk"
is categorised "Movement Actions" with sovExample "I now walk", and its "-ing"
variant row carries sovExample "I walking am". -/
theorem C7_walk_examples :
    ∀ (m : List (String × String)) (avail : List String),
      catOf "walk" = "Movement Actions" ∧
      sov_example "walk" "Movement Actions" = "I now walk" ∧
      (rowsFor m avail "walk").map Row.sovExample =
        ["I now walk", "I walking am", "I yesterday walked"] := by
  intro m avail
  exact ⟨by decide, by decide, rfl⟩

/-- C6: variant expansion never emits an "-ing" row for a base word that
already ends in "ing", nor an "-ed" row for one that already ends in "ed": the
appended-suffix word is absent from the rows generated for such a word. -/
theorem C6_no_double_suffix :
    ∀ (m : List (String × String)) (avail : List String) (w : String),
      (pyEndsWith w "ing" = true → ingForm w ∉ (rowsFor m avail w).map Row.word) ∧
      (pyEndsWith w "ed" = true → edForm w ∉ (rowsFor m avail w).map Row.word) := by
  intro m avail w
  have elen3 : ("ing" : String).length = 3 := rfl
  have elen2 : ("ed" : String).length = 2 := rfl
  constructor
  · intro hing
    have he : pyEndsWith w "e" = false := not_e_of_ing hing
    have hif : ingForm w = w ++ "ing" := by simp [ingForm, he]
    have hef : edForm w = w ++ "ed" := by simp [edForm, he]
    have h1 : ingForm w ≠ w := by
      rw [hif]; apply strLen_ne; rw [String.length_append, elen3]; omega
    have h2 : ingForm w ≠ edForm w := by
      rw [hif, hef]; apply strLen_ne
      rw [String.length_append, String.length_append, elen3, elen2]; omega
    cases hed : pyEndsWith w "ed" with
    | true => simp [rowsFor, hing, hed, h1]
    | false => simp [rowsFor, hing, hed, h1, h2]
  · intro hed
    have he : pyEndsWith w "e" = false := not_e_of_ed hed
    have hing : pyEndsWith w "ing" = false := not_ing_of_ed hed
    have hif : ingForm w = w ++ "ing" := by simp [ingForm, he]
    have hef : edForm w = w ++ "ed" := by simp [edForm, he]
    have h1 : edForm w ≠ w := by
      rw [hef]; apply strLen_ne; rw [String.length_append, elen2]; omega
    have h2 : edForm w ≠ ingForm w := by
      rw [hif, hef]; apply strLen_ne
      rw [String.length_append, String.length_append, elen3, elen2]; omega
    simp [rowsFor, hing, hed, h1, h2]

/-- Witness for C6 at the "-ing" word "sing" and the "-ed" word "fixed". -/
theorem C6_witness :
    (pyEndsWith "sing" "ing" = true ∧
      ingForm "sing" ∉ (rowsFor [] [] "sing").map Row.word) ∧
    (pyEndsWith "fixed" "ed" = true ∧
      edForm "fixed" ∉ (rowsFor [] [] "fixed").map Row.word) :=
  ⟨⟨by decide, (C6_no_double_suffix [] [] "sing").1 (by decide)⟩,
   ⟨by decide, (C6_no_double_suffix [] [] "fixed").2 (by decide)⟩⟩

/-- C3 counterexample: the base word "seed" already ends in "ed", so no "-ed"
row ("seeded") is emitted for it at all; and for the base word "bake" the
emitted "-ed" word is "baked" (the trailing "e" is kept and "d" appended), not
the "bakd" that dropping the "e" before appending "d" would give. -/
theorem C3_counterexample :
    ("seeded" ∉ (rowsFor ACTION_MAPPINGS [] "seed").map Row.word) ∧
    (rowsFor ACTION_MAPPINGS [] "bake").map Row.word = ["bake", "baking", "baked"] ∧
    ("bakd" ∉ (rowsFor ACTION_MAPPINGS [] "bake").map Row.word) := by decide

/-- C3 amended: for each base row whose word does not already end in "ing"
resp. "ed", the expander emits an "-ing" row (dropping a trailing "e" before
appending "ing") and an "-ed" row (appending "d" when the word ends in "e" —
keeping the "e", i.e. stem + "ed" — and appending "ed" otherwise); both
variants reuse the base row's resolved sign, and the three sovExamples are
pairwise distinct templated phrases. -/
theorem C3_variant_rows :
    ∀ (m : List (String × String)) (avail : List String) (w : String),
      pyEndsWith w "ing" = false → pyEndsWith w "ed" = false →
      ((rowsFor m avail w).map (fun r => (r.word, r.sign, r.sovExample)) =
        [(w, resolve_sign m avail w, sov_example w (catOf w)),
         (ingForm w, resolve_sign m avail w, "I " ++ w ++ "ing am"),
         (edForm w, resolve_sign m avail w, "I yesterday " ++ w ++ "ed")]) ∧
      sov_example w (catOf w) ≠ "I " ++ w ++ "ing am" ∧
      sov_example w (catOf w) ≠ "I yesterday " ++ w ++ "ed" ∧
      ("I " ++ w ++ "ing am" : String) ≠ "I yesterday " ++ w ++ "ed" := by
  intro m avail w hing hed
  refine ⟨?_, sov_base_ne_ing w _, sov_base_ne_ed w _, sov_ing_ne_ed w⟩
  simp [rowsFor, hing, hed]

/-- Witness for C3 at the word "walk" (no trailing "ing"/"ed"). -/
theorem C3_witness :
    (pyEndsWith "walk" "ing" = false) ∧ (pyEndsWith "walk" "ed" = false) ∧
      (rowsFor [] [] "walk").map (fun r => (r.word, r.sign, r.sovExample)) =
        [("walk", resolve_sign [] [] "walk", sov_example "walk" (catOf "walk")),
         (ingForm "walk", resolve_sign [] [] "walk", "I " ++ "walk" ++ "ing am"),
         (edForm "walk", resolve_sign [] [] "walk", "I yesterday " ++ "walk" ++ "ed")] :=
  ⟨by decide, by decide, (C3_variant_rows [] [] "walk" (by decide) (by decide)).1⟩

/-- The two variant-row example phrases of every "e"-final vocabulary word omit
that row's own word (checked by evaluation over the vocabulary). -/
theorem C10_containment_facts :
    allWords.all (fun w => !pyEndsWith w "e" ||
      (!containsSub ("I " ++ w ++ "ing am") (dropLastStr w ++ "ing") &&
       !containsSub ("I yesterday " ++ w ++ "ed") (w ++ "d"))) = true := by decide

/-- C10: for every vocabulary word ending in "e", the variant rows' sovExample
phrases are built from the raw word plus suffix (word + "ing", word + "ed"),
while the rows' word fields drop the "e" (resp. append "d"), so neither
sovExample contains its own row's word. -/
theorem C10_e_words_variant_examples :
    ∀ (w : String), w ∈ allWords → pyEndsWith w "e" = true →
      ∀ (m : List (String × String)) (avail : List String),
        ((rowsFor m avail w).map (fun r => (r.word, r.sovExample)) =
          [(w, sov_example w (catOf w)),
           (dropLastStr w ++ "ing", "I " ++ w ++ "ing am"),
           (w ++ "d", "I yesterday " ++ w ++ "ed")]) ∧
        containsSub ("I " ++ w ++ "ing am") (dropLastStr w ++ "ing") = false ∧
        containsSub ("I yesterday " ++ w ++ "ed") (w ++ "d") = false := by
  intro w hw he m avail
  have hing : pyEndsWith w "ing" = false := not_ing_of_e he
  have hed : pyEndsWith w "ed" = false := not_ed_of_e he
  have hcont := List.all_eq_true.mp C10_containment_facts w hw
  rw [he] at hcont
  simp only [Bool.not_true, Bool.false_or, Bool.and_eq_true, Bool.not_eq_true'] at hcont
  refine ⟨?_, hcont.1, hcont.2⟩
  simp [rowsFor, hing, hed, ingForm, edForm, he]

/-- Witness for C10 at the vocabulary word "bake". -/
theorem C10_witness :
    ("bake" ∈ allWords) ∧ (pyEndsWith "bake" "e" = true) ∧
      ((rowsFor [] [] "bake").map (fun r => (r.word, r.sovExample)) =
        [("bake", sov_example "bake" (catOf "bake")),
         (dropLastStr "bake" ++ "ing", "I " ++ "bake" ++ "ing am"),
         ("bake" ++ "d", "I yesterday " ++ "bake" ++ "ed")]) ∧
      containsSub ("I " ++ "bake" ++ "ing am") (dropLastStr "bake" ++ "ing") = false :=
  ⟨by decide, by decide, (C10_e_words_variant_examples "bake" (by decide) (by decide) [] []).1,
    (C10_e_words_variant_examples "bake" (by decide) (by decide) [] []).2.1⟩

/-! ### Claim C8: the tabular and structured exports -/

theorem splitCh_ne_nil : ∀ l : List Char, splitCh l ≠ [] := by
  intro l
  induction l with
  | nil => simp [splitCh]
  | cons c rest ih =>
    rw [splitCh]
    split_ifs with h
    · simp
    · cases hr : splitCh rest with
      | nil => simp
      | cons g gs => simp

theorem splitCh_no_comma : ∀ {l : List Char}, ',' ∉ l → splitCh l = [l] := by
  intro l
  induction l with
  | nil => intro _; rfl
  | cons c rest ih =>
    intro hmem
    have hc : ¬(c == ',') = true := by
      simp only [beq_iff_eq]
      intro he
      exact hmem (he ▸ List.mem_cons_self c rest)
    have hrest : ',' ∉ rest := fun hr => hmem (List.mem_cons_of_mem c hr)
    rw [splitCh, if_neg hc, ih hrest]

theorem splitCh_append : ∀ {a : List Char}, ',' ∉ a →
    ∀ b : List Char, splitCh (a ++ ',' :: b) = a :: splitCh b := by
  intro a
  induction a with
  | nil =>
    intro _ b
    simp [splitCh]
  | cons c rest ih =>
    intro hmem b
    have hc : ¬(c == ',') = true := by
      simp only [beq_iff_eq]
      intro he
      exact hmem (he ▸ List.mem_cons_self c rest)
    have hrest : ',' ∉ rest := fun hr => hmem (List.mem_cons_of_mem c hr)
    rw [List.cons_append, splitCh, if_neg hc, ih hrest b]

theorem plainField_no_comma {s : String} (h : plainField s = true) :
    ',' ∉ s.data := by
  intro hmem
  have : csvNeedsQuote s = true := by
    unfold csvNeedsQuote
    rw [List.any_eq_true]
    exact ⟨',', hmem, by decide⟩
  rw [plainField, this] at h
  simp at h

theorem csvEscape_plain {s : String} (h : plainField s = true) : csvEscape s = s := by
  unfold csvEscape
  rw [plainField] at h
  rw [if_neg]
  simp only [Bool.not_eq_true'] at h
  rw [h]
  simp

theorem splitOnComma_csvRow {r : Row} (h : plainRow r = true) :
    splitOnComma (csvRow r) = [r.word, r.sign, r.sovExample, r.category] := by
  rw [plainRow, Bool.and_eq_true, Bool.and_eq_true, Bool.and_eq_true] at h
  obtain ⟨⟨⟨hw, hs⟩, hx⟩, hc⟩ := h
  have hdata : (csvRow r).data =
      r.word.data ++ ',' :: (r.sign.data ++ ',' :: (r.sovExample.data ++ ',' :: r.category.data)) := by
    unfold csvRow
    rw [csvEscape_plain hw, csvEscape_plain hs, csvEscape_plain hx, csvEscape_plain hc]
    simp only [String.data_append, List.append_assoc]
    rfl
  unfold splitOnComma
  rw [hdata, splitCh_append (plainField_no_comma hw), splitCh_append (plainField_no_comma hs),
    splitCh_append (plainField_no_comma hx), splitCh_no_comma (plainField_no_comma hc)]
  rfl

/-- C8: the tabular export is a header line followed by one line per record in
the fixed column order word, sign, sovExample, category; it has exactly one
more line than the structured-record export has records, and (for the
quote-free fields the generator produces) parsing each line back gives the same
ordered (word, sign) pairs as the structured-record export. -/
theorem C8_exports_agree :
    ∀ ds : List Row,
      (export_to_csv ds).length = (export_to_json ds).length + 1 ∧
      (export_to_csv ds).head? = some "word,sign,sovExample,category" ∧
      export_to_csv ds = "word,sign,sovExample,category" :: (export_to_json ds).map csvRow ∧
      ((∀ r ∈ ds, plainRow r = true) →
        ((export_to_csv ds).drop 1).map (fun line => (splitOnComma line).take 2) =
          (export_to_json ds).map (fun r => [r.word, r.sign])) := by
  intro ds
  refine ⟨?_, rfl, rfl, ?_⟩
  · simp [export_to_csv, export_to_json]
  · intro hp
    show ((ds.map csvRow).map (fun line => (splitOnComma line).take 2)) = _
    rw [List.map_map]
    apply List.map_congr_left
    intro r hr
    show (splitOnComma (csvRow r)).take 2 = _
    rw [splitOnComma_csvRow (hp r hr)]
    rfl

/-- Witness for C8 at a one-record collection with comma-free fields. -/
theorem C8_witness :
    (plainRow ⟨"walk", "walk", "I now walk", "Movement Actions"⟩ = true) ∧
      ((export_to_csv [⟨"walk", "walk", "I now walk", "Movement Actions"⟩]).drop 1).map
          (fun line => (splitOnComma line).take 2) =
        (export_to_json [⟨"walk", "walk", "I now walk", "Movement Actions"⟩]).map
          (fun r => [r.word, r.sign]) :=
  ⟨by decide, (C8_exports_agree [⟨"walk", "walk", "I now walk", "Movement Actions"⟩]).2.2.2
    (by decide)⟩

/-! ### Claim C9: determinism of generation and export -/

theorem leB_trans : ∀ a b c : String, leB a b = true → leB b c = true → leB a c = true := by
  intro a b c hab hbc
  rw [leB, decide_eq_true_eq] at *
  exact le_trans hab hbc

theorem leB_total : ∀ a b : String, (leB a b || leB b a) = true := by
  intro a b
  rcases le_total a b with h | h
  · rw [Bool.or_eq_true, leB, decide_eq_true_eq]
    exact Or.inl h
  · rw [Bool.or_eq_true, leB, leB, decide_eq_true_eq, decide_eq_true_eq]
    exact Or.inr h

theorem sortedWords_sorted (v : List String) : List.Sorted (· ≤ ·) (sortedWords v) := by
  have h := List.sorted_mergeSort leB_trans leB_total v.dedup
  exact h.imp (fun hab => by
    rw [leB, decide_eq_true_eq] at hab
    exact hab)

theorem sortedWords_nodup (v : List String) : (sortedWords v).Nodup :=
  ((List.mergeSort_perm v.dedup leB).nodup_iff).mpr (List.nodup_dedup v)

theorem mem_sortedWords {w : String} {v : List String} : w ∈ sortedWords v ↔ w ∈ v :=
  List.mem_mergeSort.trans List.mem_dedup

theorem sortedWords_perm_invariant {v₁ v₂ : List String} (h : v₁.Perm v₂) :
    sortedWords v₁ = sortedWords v₂ := by
  apply List.eq_of_perm_of_sorted (r := (· ≤ · : String → String → Prop))
  · exact ((List.mergeSort_perm v₁.dedup leB).trans h.dedup).trans
      (List.mergeSort_perm v₂.dedup leB).symm
  · exact sortedWords_sorted v₁
  · exact sortedWords_sorted v₂

/-- C9: generation is deterministic — the vocabulary is deduplicated as a set
and iterated in sorted lexicographic order without duplicates, so any two
presentations of the same vocabulary multiset (in particular two identical
runs) yield the same dataset collection and byte-identical JSON, CSV and
TypeScript file contents. -/
theorem C9_determinism :
    ∀ (v₁ v₂ avail : List String), v₁.Perm v₂ →
      sortedWords v₁ = sortedWords v₂ ∧
      List.Sorted (· ≤ ·) (sortedWords v₁) ∧
      (sortedWords v₁).Nodup ∧
      (∀ w, w ∈ sortedWords v₁ ↔ w ∈ v₁) ∧
      generate_action_dataset v₁ avail = generate_action_dataset v₂ avail ∧
      jsonFile (generate_action_dataset v₁ avail) = jsonFile (generate_action_dataset v₂ avail) ∧
      csvFile (generate_action_dataset v₁ avail) = csvFile (generate_action_dataset v₂ avail) ∧
      generate_typescript_dataset (generate_action_dataset v₁ avail) =
        generate_typescript_dataset (generate_action_dataset v₂ avail) := by
  intro v₁ v₂ avail h
  have hs := sortedWords_perm_invariant h
  have hg : generate_action_dataset v₁ avail = generate_action_dataset v₂ avail := by
    unfold generate_action_dataset
    rw [hs]
  exact ⟨hs, sortedWords_sorted v₁, sortedWords_nodup v₁, fun w => mem_sortedWords,
    hg, congrArg jsonFile hg, congrArg csvFile hg, congrArg generate_typescript_dataset hg⟩

/-- Witness for C9 at the permuted vocabularies `["b", "a"]` and `["a", "b"]`. -/
theorem C9_witness :
    (List.Perm ["b", "a"] ["a", "b"]) ∧
      generate_action_dataset ["b", "a"] [] = generate_action_dataset ["a", "b"] [] ∧
      csvFile (generate_action_dataset ["b", "a"] []) =
        csvFile (generate_action_dataset ["a", "b"] []) :=
  ⟨List.Perm.swap "a" "b" [],
    (C9_determinism ["b", "a"] ["a", "b"] [] (List.Perm.swap "a" "b" [])).2.2.2.2.1,
    (C9_determinism ["b", "a"] ["a", "b"] [] (List.Perm.swap "a" "b" [])).2.2.2.2.2.2.1⟩
end ISL
